import Mathlib

/-!
Shallow embedding of the lap/telemetry analytics pipeline of SimFlowDataBot
(`scripts/analysis/`): the lap-record construction of
`data_parser.DataParser._clean_lap_time_data`, the token validation and
parsing helpers `_is_valid_time` / `_parse_time_to_seconds`, the cleaning and
statistics of `lap_analyzer.LapAnalyzer`, the channel metrics of
`telemetry_analyzer.TelemetryAnalyzer`, and the score/grade logic plus
key structure of `kpi_calculator.KPICalculator`.

Conventions of the embedding:
* Python floats are modelled by exact rationals (`ℚ`); quantities that pass
  through a square root (standard deviations) live in `ℝ`.
* pandas `NaN` results that arise *structurally* (sample standard deviation of
  fewer than two values, `ddof = 1`) are modelled by `Option`: `none` is NaN.
* Python strings are modelled as `List Char`; cells that may hold pandas `NaN`
  are `Option (List Char)`.
* Python dictionaries are association lists (`List (String × _)`) in insertion
  order.
-/

namespace SimFlow

/-- Python string token (the text of a cell). -/
abbrev Token := List Char

/-- Python `str.strip()`: remove leading and trailing whitespace. -/
def pyStrip (cs : Token) : Token :=
  ((cs.dropWhile Char.isWhitespace).reverse.dropWhile Char.isWhitespace).reverse

/-- Tail of the lap-time pattern after the colon: exactly `SS.mmm`
(two digits, a dot, three digits), from the regex in
`DataParser._is_valid_time` (`data_parser.py` line 344). -/
def matchSecPart : Token → Bool
  | [s1, s2, '.', m1, m2, m3] =>
      s1.isDigit && s2.isDigit && m1.isDigit && m2.isDigit && m3.isDigit
  | _ => false

/-- Full match of `^\d{1,2}:\d{2}\.\d{3}$` on a character list. -/
def matchTimeChars : Token → Bool
  | d1 :: ':' :: rest => d1.isDigit && matchSecPart rest
  | d1 :: d2 :: ':' :: rest => d1.isDigit && d2.isDigit && matchSecPart rest
  | _ => false

/-- Embedding of `DataParser._is_valid_time` (`data_parser.py` lines 341-345): the stripped
token must fully match `\d{1,2}:\d{2}\.\d{3}`.  Note that the regex does NOT
accept a bare decimal number. -/
def is_valid_time (cs : Token) : Bool :=
  matchTimeChars (pyStrip cs)

/-- Value of a digit string read in base 10. -/
def digitsVal (cs : Token) : ℕ :=
  cs.foldl (fun a c => 10 * a + (c.toNat - '0'.toNat)) 0

/-- Restriction of Python `float(...)` to unsigned fixed-notation numerals
`digits`, `digits.digits`, `digits.` and `.digits` — the only shapes the
ingest path can feed it.  Signs, exponents and other accepted spellings of
Python floats are not modelled; they never match `_is_valid_time`. -/
def parseFloatQ (cs : Token) : Option ℚ :=
  let ip := cs.takeWhile (fun c => c ≠ '.')
  let rest := cs.dropWhile (fun c => c ≠ '.')
  match rest with
  | [] => if !ip.isEmpty && ip.all Char.isDigit then some (digitsVal ip) else none
  | _ :: frac =>
      if (ip.all Char.isDigit && frac.all Char.isDigit &&
          (!ip.isEmpty || !frac.isEmpty) && !frac.contains '.') then
        some ((digitsVal ip : ℚ) + (digitsVal frac : ℚ) / (10 : ℚ) ^ frac.length)
      else none

/-- Embedding of `DataParser._parse_time_to_seconds` (`data_parser.py` lines 347-358):
strip; if the string contains a colon, split on it — exactly two parts parse
as `minutes * 60 + seconds`, any other arity raises and is caught, giving
`0.0`; without a colon the whole string is parsed as a float; any parse
failure gives `0.0`. -/
def parse_time_to_seconds (cs : Token) : ℚ :=
  let t := pyStrip cs
  if t.contains ':' then
    match (t.splitOn ':') with
    | [m, s] =>
        match parseFloatQ m, parseFloatQ s with
        | some mv, some sv => mv * 60 + sv
        | _, _ => 0
    | _ => 0
  else (parseFloatQ t).getD 0

/-- Per-cell ingestion of `_clean_lap_time_data` (`data_parser.py` lines
94-98): a non-NaN cell whose text passes `_is_valid_time` is stored as its
parsed seconds value; every other cell (NaN, or failing validation) is stored
as null. -/
def cellValue (c : Option Token) : Option ℚ :=
  match c with
  | some t => if is_valid_time t then some (parse_time_to_seconds t) else none
  | none => none

/-- The lap-extraction region of one sector row (`data_parser.py` line 93):
columns `1 .. len(row) - 4`, excluding column 0 (the sector name) and the last
three trailing-metadata columns, each cell mapped through `cellValue`. -/
def rowLapTimes (row : List (Option Token)) : List (Option ℚ) :=
  ((row.take (row.length - 3)).drop 1).map cellValue

/-- A constructed lap record (`lap_dict` of `data_parser.py` lines 110-128).
The `session_id` string is constant per session and not modelled. -/
structure Lap where
  lap_number : ℕ
  sectors : List (Option ℚ)
  total_lap_time : Option ℚ
deriving DecidableEq, Repr

/-- Total-lap-time computation (`data_parser.py` lines 120-126): the sum of
the sector values when all are non-null, else null. -/
def totalOf (sectors : List (Option ℚ)) : Option ℚ :=
  if sectors.all Option.isSome then some ((sectors.filterMap id).sum) else none

/-- Lap-record construction (`data_parser.py` lines 106-128): given the
per-sector lists of parsed lap times, build one record per lap index up to the
longest sector list; a sector list too short for a lap index contributes
null. -/
def buildLapRecords (lapData : List (List (Option ℚ))) : List Lap :=
  let maxLaps := (lapData.map List.length).foldr max 0
  (List.range maxLaps).map (fun i =>
    let sectors := lapData.map (fun col => col.getD i none)
    { lap_number := i + 1, sectors := sectors, total_lap_time := totalOf sectors })

/-- Mean of a list of rationals (`Series.mean` / `np.mean` on non-NaN data);
division by zero for the empty list yields `0` in `ℚ`, a case all call sites
guard. -/
def meanQ (l : List ℚ) : ℚ := l.sum / l.length

/-- Minimum of a list with a default for the empty list (`Series.min`). -/
def minD : List ℚ → ℚ → ℚ
  | [], d => d
  | x :: xs, _ => xs.foldl min x

/-- pandas `Series.median`: sort; odd length takes the middle element, even
length the average of the two middle elements. -/
def medianQ (l : List ℚ) : ℚ :=
  let s := l.insertionSort (· ≤ ·)
  let n := s.length
  if n = 0 then 0
  else if n % 2 = 1 then s.getD (n / 2) 0
  else (s.getD (n / 2 - 1) 0 + s.getD (n / 2) 0) / 2

/-- The pandas dropna step on the total-lap-time column (`lap_analyzer.py` line 51). -/
def validLaps (laps : List Lap) : List Lap :=
  laps.filter (fun l => l.total_lap_time.isSome)

/-- Embedding of `LapAnalyzer._clean_lap_data` (`lap_analyzer.py` lines 48-72): drop laps
with null total; if more than three remain, keep only laps whose total lies in
`[0.5 * median, 3 * median]` and report how many were removed (the
`outliers_removed` diagnostic); otherwise no outlier filtering happens and the
removed count is `0`. -/
def cleanLapData (laps : List Lap) : List Lap × ℕ :=
  let valid := validLaps laps
  if 3 < valid.length then
    let med := medianQ (valid.map (fun l => l.total_lap_time.getD 0))
    let kept := valid.filter (fun l =>
      decide (med * (1/2) ≤ l.total_lap_time.getD 0 ∧
              l.total_lap_time.getD 0 ≤ med * 3))
    (kept, valid.length - kept.length)
  else (valid, 0)

/-- The series `total_lap_time` over a list of laps (non-null entries). -/
def lapTimesOf (laps : List Lap) : List ℚ :=
  laps.filterMap (fun l => l.total_lap_time)

/-- The best lap time `lap_times.min()` (`lap_analyzer.py` line 87). -/
def bestLapTime (laps : List Lap) : ℚ :=
  minD (lapTimesOf laps) 0

/-- The non-null values of sector column `j` across laps
(`self.lap_data[sector_col].dropna()`, `lap_analyzer.py` line 128). -/
def colVals (laps : List Lap) (j : ℕ) : List ℚ :=
  laps.filterMap (fun l => l.sectors.getD j none)

/-- Embedding of `LapAnalyzer._calculate_theoretical_best` (`lap_analyzer.py` lines
119-133): sum over each sector column of its minimum non-null value; a column
with no values contributes nothing (here: `minD [] 0 = 0`). -/
def theoreticalBest (numSectors : ℕ) (laps : List Lap) : ℚ :=
  (Finset.range numSectors).sum (fun j => minD (colVals laps j) 0)

end SimFlow

namespace SimFlow

/-- C1: a constructed lap record carries `total_lap_time = ` the exact sum of
its sector values when all sectors are non-null, and null otherwise
(`data_parser.py` lines 110-128). -/
theorem C1_total_lap_time (lapData : List (List (Option ℚ))) (r : Lap)
    (hr : r ∈ buildLapRecords lapData) :
    (r.sectors.all Option.isSome = true →
      r.total_lap_time = some ((r.sectors.filterMap id).sum)) ∧
    (r.sectors.all Option.isSome = false → r.total_lap_time = none) := by
  rcases List.mem_map.mp hr with ⟨i, _, rfl⟩
  constructor
  · intro hall
    simp only [totalOf, hall, if_true]
  · intro hnot
    simp only [totalOf, hnot, Bool.false_eq_true, if_false]

/-- Witness for C1: two sectors, two laps; lap 1 has both sectors
(total `3`), lap 2 misses sector 1 (total null). -/
theorem C1_total_lap_time_witness :
    ({ lap_number := 1, sectors := [some 1, some 2], total_lap_time := some 3 } :
        Lap).sectors.all Option.isSome = true ∧
    ({ lap_number := 1, sectors := [some 1, some 2], total_lap_time := some 3 } :
        Lap).total_lap_time =
      some ((([some 1, some 2] : List (Option ℚ)).filterMap id).sum) :=
  ⟨by decide,
    (C1_total_lap_time [[some 1, none], [some 2, some 3]]
      { lap_number := 1, sectors := [some 1, some 2], total_lap_time := some 3 }
      (by norm_num [buildLapRecords, totalOf, List.range_succ, List.filterMap_cons])).1
      (by decide)⟩

/-- A successful match of the lap-time regex contains a colon. -/
lemma colon_mem_of_matchTimeChars (cs : Token) (h : matchTimeChars cs = true) :
    ':' ∈ cs := by
  unfold matchTimeChars at h
  split at h
  · exact List.mem_cons_of_mem _ (List.mem_cons_self _ _)
  · exact List.mem_cons_of_mem _ (List.mem_cons_of_mem _ (List.mem_cons_self _ _))
  · simp at h

/-- Stripping only removes characters, so membership transfers back. -/
lemma mem_of_mem_pyStrip (c : Char) (cs : Token) (h : c ∈ pyStrip cs) : c ∈ cs := by
  unfold pyStrip at h
  rw [List.mem_reverse] at h
  have h1 := (List.dropWhile_sublist _).mem h
  rw [List.mem_reverse] at h1
  exact (List.dropWhile_sublist _).mem h1

/-- C4 (amended): a cell is stored as its parsed seconds value exactly when
its token fully matches `\d{1,2}:\d{2}\.\d{3}` after stripping; every other
token — including a bare decimal number, which contains no colon — and every
NaN cell is stored as null (`data_parser.py` lines 93-98, 341-345). -/
theorem C4_cell_ingestion (t : Token) :
    (is_valid_time t = true → cellValue (some t) = some (parse_time_to_seconds t)) ∧
    (is_valid_time t = false → cellValue (some t) = none) ∧
    cellValue (none : Option Token) = none ∧
    (':' ∉ t → cellValue (some t) = none) := by
  refine ⟨fun h => by simp [cellValue, h], fun h => by simp [cellValue, h], rfl, fun h => ?_⟩
  have hv : is_valid_time t = false := by
    rcases Bool.eq_false_or_eq_true (is_valid_time t) with h' | h'
    · exact absurd (mem_of_mem_pyStrip ':' t (colon_mem_of_matchTimeChars _ h')) h
    · exact h'
  simp [cellValue, hv]

/-- Witness for C4: the token `9:23.456` is valid and is stored as its parsed
value `9 * 60 + 23.456`. -/
theorem C4_cell_ingestion_witness :
    cellValue (some ("9:23.456".toList)) =
      some (parse_time_to_seconds ("9:23.456".toList)) :=
  (C4_cell_ingestion ("9:23.456".toList)).1 (by decide)

/-- Counterexample to C4 as stated: the bare decimal token `95.321` is stored
as null, not as the number `95.321` (`_is_valid_time` accepts only the
`minutes:seconds.milliseconds` shape). -/
theorem C4_bare_decimal_counterexample :
    cellValue (some ("95.321".toList)) = none ∧
    cellValue (some ("95.321".toList)) ≠ some (95321 / 1000 : ℚ) := by
  constructor
  · decide
  · intro h
    rw [show cellValue (some ("95.321".toList)) = none from by decide] at h
    cases h

/-- The six-lap input of the outlier test: total times
`[90.0, 91.0, 89.5, 95.0, 90.2, 902.0]`, built as single-sector records. -/
def outlierDemoLaps : List Lap :=
  buildLapRecords [[some 90.0, some 91.0, some 89.5, some 95.0, some 90.2, some 902.0]]

/-- C3: cleaning drops null-total laps; the outlier filter runs exactly when
more than three laps remain, keeping the laps inside
`[0.5 * median, 3 * median]` and reporting the number removed, and performing
no removal otherwise (`lap_analyzer.py` lines 48-72).  On total times
`[90.0, 91.0, 89.5, 95.0, 90.2, 902.0]` (median `90.6`) exactly the `902.0`
lap is removed and the removed count is `1`. -/
theorem C3_outlier_cleaning (laps : List Lap) :
    ((validLaps laps).length ≤ 3 → cleanLapData laps = (validLaps laps, 0)) ∧
    (3 < (validLaps laps).length →
      (∀ l, l ∈ (cleanLapData laps).1 ↔
        (l ∈ validLaps laps ∧
          medianQ ((validLaps laps).map (fun l => l.total_lap_time.getD 0)) * (1/2) ≤
            l.total_lap_time.getD 0 ∧
          l.total_lap_time.getD 0 ≤
            medianQ ((validLaps laps).map (fun l => l.total_lap_time.getD 0)) * 3)) ∧
      (cleanLapData laps).2 =
        (validLaps laps).length - (cleanLapData laps).1.length) ∧
    (cleanLapData outlierDemoLaps).1.map (fun l => l.total_lap_time) =
      [some 90.0, some 91.0, some 89.5, some 95.0, some 90.2] ∧
    (cleanLapData outlierDemoLaps).2 = 1 := by
  refine ⟨?_, ?_, ?_, ?_⟩
  · intro h
    unfold cleanLapData
    rw [if_neg (by omega)]
  · intro h
    unfold cleanLapData
    rw [if_pos h]
    refine ⟨fun l => ?_, rfl⟩
    simp [List.mem_filter]
  · norm_num [cleanLapData, outlierDemoLaps, validLaps, buildLapRecords, totalOf,
      medianQ, List.range_succ, List.filterMap_cons, List.insertionSort,
      List.orderedInsert, List.filter]
  · norm_num [cleanLapData, outlierDemoLaps, validLaps, buildLapRecords, totalOf,
      medianQ, List.range_succ, List.filterMap_cons, List.insertionSort,
      List.orderedInsert, List.filter]

/-- Witness for C3: with three or fewer valid laps no outlier filtering
happens; concretely for a single lap. -/
theorem C3_outlier_cleaning_witness :
    cleanLapData [{ lap_number := 1, sectors := [some 90], total_lap_time := some 90 }] =
      (validLaps [{ lap_number := 1, sectors := [some 90], total_lap_time := some 90 }], 0) :=
  (C3_outlier_cleaning
    [{ lap_number := 1, sectors := [some 90], total_lap_time := some 90 }]).1
    (by decide)

/-- Folded minimum is bounded by its initial accumulator. -/
lemma foldl_min_le_init (xs : List ℚ) (a : ℚ) : xs.foldl min a ≤ a := by
  induction xs generalizing a with
  | nil => exact le_refl a
  | cons x xs ih => exact le_trans (ih (min a x)) (min_le_left a x)

/-- Folded minimum is bounded by every list member. -/
lemma foldl_min_le_mem (xs : List ℚ) (a x : ℚ) (hx : x ∈ xs) :
    xs.foldl min a ≤ x := by
  induction xs generalizing a with
  | nil => cases hx
  | cons y ys ih =>
    rcases List.mem_cons.mp hx with rfl | h
    · exact le_trans (foldl_min_le_init ys (min a x)) (min_le_right a x)
    · exact ih (min a y) h

/-- The folded minimum is the accumulator or a member of the list. -/
lemma foldl_min_mem (xs : List ℚ) (a : ℚ) :
    xs.foldl min a = a ∨ xs.foldl min a ∈ xs := by
  induction xs generalizing a with
  | nil => exact Or.inl rfl
  | cons x xs ih =>
    rcases ih (min a x) with h | h
    · rcases min_choice a x with h2 | h2
      · exact Or.inl (by rw [List.foldl_cons, h, h2])
      · exact Or.inr (by rw [List.foldl_cons, h, h2]; exact List.mem_cons_self _ _)
    · exact Or.inr (List.mem_cons_of_mem _ h)

/-- The default-valued minimum of a list bounds every member. -/
lemma minD_le (l : List ℚ) (d x : ℚ) (hx : x ∈ l) : minD l d ≤ x := by
  cases l with
  | nil => cases hx
  | cons y ys =>
    rcases List.mem_cons.mp hx with rfl | h
    · exact foldl_min_le_init ys x
    · exact foldl_min_le_mem ys y x h

/-- The default-valued minimum of a non-empty list is attained by a member. -/
lemma minD_mem (l : List ℚ) (d : ℚ) (h : l ≠ []) : minD l d ∈ l := by
  cases l with
  | nil => exact absurd rfl h
  | cons y ys =>
    rcases foldl_min_mem ys y with h2 | h2
    · rw [show minD (y :: ys) d = ys.foldl min y from rfl, h2]
      exact List.mem_cons_self _ _
    · exact List.mem_cons_of_mem _ h2

/-- Sum of the present values of an all-non-null option list, written as an
indexed sum over the positions. -/
lemma sum_filterMap_eq_sum_getD (s : List (Option ℚ))
    (h : s.all Option.isSome = true) :
    (s.filterMap id).sum =
      (Finset.range s.length).sum (fun j => (s.getD j none).getD 0) := by
  induction s with
  | nil => simp
  | cons o rest ih =>
    rcases o with _ | a
    · simp at h
    · have hall : rest.all Option.isSome = true := by simpa using h
      rw [List.filterMap_cons]
      simp only [id_eq, List.sum_cons, List.length_cons]
      rw [Finset.sum_range_succ']
      simp only [List.getD_cons_succ, List.getD_cons_zero, Option.getD_some]
      rw [ih hall]
      ring

/-- Members of the cleaned lap list come from the input and have a non-null
total. -/
lemma mem_of_mem_cleanLapData (laps : List Lap) (l : Lap)
    (h : l ∈ (cleanLapData laps).1) :
    l ∈ laps ∧ l.total_lap_time.isSome = true := by
  have hvalid : l ∈ validLaps laps := by
    simp only [cleanLapData] at h
    split at h
    · exact (List.mem_filter.mp h).1
    · exact h
  have := List.mem_filter.mp hvalid
  exact ⟨this.1, by simpa using this.2⟩

/-- Every record built by `buildLapRecords` has one sector entry per input
sector list and carries the computed total. -/
lemma buildLapRecords_shape (lapData : List (List (Option ℚ))) (l : Lap)
    (h : l ∈ buildLapRecords lapData) :
    l.sectors.length = lapData.length ∧ l.total_lap_time = totalOf l.sectors := by
  rcases List.mem_map.mp h with ⟨i, _, rfl⟩
  exact ⟨List.length_map _ _, rfl⟩

/-- An in-bounds `getD` is a member of the list. -/
lemma getD_mem_of_lt {α : Type} (l : List α) (j : ℕ) (d : α) (h : j < l.length) :
    l.getD j d ∈ l := by
  induction l generalizing j with
  | nil => cases h
  | cons x xs ih =>
    cases j with
    | zero => rw [List.getD_cons_zero]; exact List.mem_cons_self _ _
    | succ n =>
      rw [List.getD_cons_succ]
      exact List.mem_cons_of_mem _ (ih n (by simpa using h))

/-- A non-null total forces all sectors non-null and equals their sum. -/
lemma totalOf_eq_some (s : List (Option ℚ)) (t : ℚ) (h : totalOf s = some t) :
    s.all Option.isSome = true ∧ t = (s.filterMap id).sum := by
  unfold totalOf at h
  split at h
  · exact ⟨by assumption, (Option.some_injective _ h).symm⟩
  · cases h

/-- C2: for parser-built lap data whose cleaned lap set is non-empty, the
theoretical best (sum of per-sector minima over the cleaned laps,
`lap_analyzer.py` lines 119-133) never exceeds the best lap time (minimum
total over the cleaned laps, `lap_analyzer.py` line 87). -/
theorem C2_theoretical_best_le_best (lapData : List (List (Option ℚ)))
    (h : (cleanLapData (buildLapRecords lapData)).1 ≠ []) :
    theoreticalBest lapData.length (cleanLapData (buildLapRecords lapData)).1 ≤
      bestLapTime (cleanLapData (buildLapRecords lapData)).1 := by
  set cleaned := (cleanLapData (buildLapRecords lapData)).1 with hc
  -- the series of total lap times over the cleaned laps is non-empty
  have htimes : lapTimesOf cleaned ≠ [] := by
    rcases List.exists_mem_of_ne_nil cleaned h with ⟨c, hcmem⟩
    rcases Option.isSome_iff_exists.mp (mem_of_mem_cleanLapData _ c hcmem).2 with ⟨t, ht⟩
    intro hnil
    have : t ∈ lapTimesOf cleaned := List.mem_filterMap.mpr ⟨c, hcmem, ht⟩
    rw [hnil] at this
    cases this
  -- the best lap time is attained by some cleaned lap l₀
  have hbest_mem : bestLapTime cleaned ∈ lapTimesOf cleaned :=
    minD_mem _ 0 htimes
  rcases List.mem_filterMap.mp hbest_mem with ⟨l₀, hl₀mem, hl₀⟩
  rcases mem_of_mem_cleanLapData _ l₀ hl₀mem with ⟨hl₀build, _⟩
  rcases buildLapRecords_shape lapData l₀ hl₀build with ⟨hlen, htot⟩
  rcases totalOf_eq_some l₀.sectors _ (htot ▸ hl₀) with ⟨hall, hsum⟩
  -- the total of the best lap is the indexed sum of its sector values
  have hbest_sum : bestLapTime cleaned =
      (Finset.range lapData.length).sum (fun j => (l₀.sectors.getD j none).getD 0) := by
    rw [hsum, sum_filterMap_eq_sum_getD _ hall, hlen]
  rw [hbest_sum]
  unfold theoreticalBest
  refine Finset.sum_le_sum (fun j hj => ?_)
  have hjlen : j < l₀.sectors.length := hlen ▸ Finset.mem_range.mp hj
  -- sector j of the best lap is non-null and appears in column j
  have hmem_s : l₀.sectors.getD j none ∈ l₀.sectors :=
    getD_mem_of_lt l₀.sectors j none hjlen
  have hsome : (l₀.sectors.getD j none).isSome = true :=
    List.all_eq_true.mp hall _ hmem_s
  rcases Option.isSome_iff_exists.mp hsome with ⟨v, hv⟩
  have hcol : v ∈ colVals cleaned j := List.mem_filterMap.mpr ⟨l₀, hl₀mem, hv⟩
  have := minD_le (colVals cleaned j) 0 v hcol
  rw [hv]
  simpa using this

/-- Witness for C2: two laps over two sectors; the cleaned set is non-empty
and the theoretical best is at most the best lap time. -/
theorem C2_theoretical_best_le_best_witness :
    theoreticalBest ([[some 30, some 31], [some 60, some 61]] :
        List (List (Option ℚ))).length
      (cleanLapData (buildLapRecords [[some 30, some 31], [some 60, some 61]])).1 ≤
    bestLapTime
      (cleanLapData (buildLapRecords [[some 30, some 31], [some 60, some 61]])).1 :=
  C2_theoretical_best_le_best [[some 30, some 31], [some 60, some 61]]
    (by
      have hval : (cleanLapData (buildLapRecords
          [[some 30, some 31], [some 60, some 61]])).1 =
          [{ lap_number := 1, sectors := [some 30, some 60], total_lap_time := some 90 },
           { lap_number := 2, sectors := [some 31, some 61], total_lap_time := some 92 }] := by
        norm_num [cleanLapData, validLaps, buildLapRecords, totalOf,
          List.range_succ, List.filterMap_cons, List.filter]
      rw [hval]
      exact List.cons_ne_nil _ _)

/-- Python slice `l[a:b]` for natural bounds. -/
def pySlice (l : List ℚ) (a b : ℕ) : List ℚ := (l.drop a).take (b - a)

/-- The sliding window size `min(3, len(lap_times) // 2)` (`lap_analyzer.py` line 173). -/
def progression_window (n : ℕ) : ℕ := min 3 (n / 2)

/-- Embedding of `LapAnalyzer._analyze_lap_progression` (`lap_analyzer.py` lines 165-186):
fewer than two laps give an empty list; otherwise, for each `i` in
`range(window, n)`, when the previous window `lap_times[max(0, i-2w) : i-w]`
is non-empty (Python `max(0, ·)` is ℕ-truncated subtraction here), append
`mean(previous_window) - mean(current_window)` with the current window
`lap_times[i-w : i]`. -/
def analyze_lap_progression (lapTimes : List ℚ) : List ℚ :=
  if lapTimes.length < 2 then []
  else
    (List.range' (progression_window lapTimes.length)
        (lapTimes.length - progression_window lapTimes.length)).filterMap (fun i =>
      if (pySlice lapTimes (i - 2 * progression_window lapTimes.length)
            (i - progression_window lapTimes.length)).isEmpty then none
      else
        some (meanQ (pySlice lapTimes (i - 2 * progression_window lapTimes.length)
                (i - progression_window lapTimes.length)) -
              meanQ (pySlice lapTimes (i - progression_window lapTimes.length) i)))

/-- The scalar `lap_progression_trend` of `LapAnalyzer.get_lap_summary`
(`lap_analyzer.py` line 214): the mean of the progression list, `0` when the
list is empty. -/
def lap_progression_trend (lapTimes : List ℚ) : ℚ :=
  if (analyze_lap_progression lapTimes).isEmpty then 0
  else meanQ (analyze_lap_progression lapTimes)

/-- A `filterMap` that never drops an element is a `map`. -/
lemma filterMap_eq_map_of_some {α β : Type} (l : List α) (f : α → Option β)
    (g : α → β) (h : ∀ x ∈ l, f x = some (g x)) : l.filterMap f = l.map g := by
  induction l with
  | nil => rfl
  | cons x xs ih =>
    rw [List.filterMap_cons_some (h x (List.mem_cons_self _ _)), List.map_cons,
      ih (fun y hy => h y (List.mem_cons_of_mem _ hy))]

/-- C5 (amended): deltas are produced only for indices `i` with
`window < i < n` — at `i = window` the previous window is empty and nothing
is appended — so the trend list has `n - window - 1` entries (not
`n - window`); fewer than two laps give an empty list and scalar trend `0`,
and the reported scalar trend of a non-empty list is its mean. -/
theorem C5_progression_deltas (lapTimes : List ℚ) :
    analyze_lap_progression lapTimes =
      (List.range' (progression_window lapTimes.length + 1)
          (lapTimes.length - (progression_window lapTimes.length + 1))).map
        (fun i =>
          meanQ (pySlice lapTimes (i - 2 * progression_window lapTimes.length)
              (i - progression_window lapTimes.length)) -
          meanQ (pySlice lapTimes (i - progression_window lapTimes.length) i)) ∧
    (analyze_lap_progression lapTimes).length =
      lapTimes.length - (progression_window lapTimes.length + 1) ∧
    (lapTimes.length < 2 →
      analyze_lap_progression lapTimes = [] ∧ lap_progression_trend lapTimes = 0) ∧
    (analyze_lap_progression lapTimes ≠ [] →
      lap_progression_trend lapTimes = meanQ (analyze_lap_progression lapTimes)) := by
  have hmain : analyze_lap_progression lapTimes =
      (List.range' (progression_window lapTimes.length + 1)
          (lapTimes.length - (progression_window lapTimes.length + 1))).map
        (fun i =>
          meanQ (pySlice lapTimes (i - 2 * progression_window lapTimes.length)
              (i - progression_window lapTimes.length)) -
          meanQ (pySlice lapTimes (i - progression_window lapTimes.length) i)) := by
    by_cases hn : lapTimes.length < 2
    · rw [analyze_lap_progression, if_pos hn]
      have hw : progression_window lapTimes.length = 0 := by
        interval_cases h : lapTimes.length <;> simp [progression_window]
      rw [hw]
      have h1 : lapTimes.length - (0 + 1) = 0 := by omega
      rw [h1]
      rfl
    · push_neg at hn
      have hw1 : 1 ≤ progression_window lapTimes.length :=
        le_min (by norm_num) ((Nat.one_le_div_iff (by norm_num)).mpr hn)
      have hwn : progression_window lapTimes.length < lapTimes.length :=
        lt_of_le_of_lt (min_le_right _ _) (Nat.div_lt_self (by omega) (by norm_num))
      rw [analyze_lap_progression, if_neg (by omega)]
      have hsplit : List.range' (progression_window lapTimes.length)
          (lapTimes.length - progression_window lapTimes.length) =
          progression_window lapTimes.length ::
            List.range' (progression_window lapTimes.length + 1)
              (lapTimes.length - (progression_window lapTimes.length + 1)) := by
        have h2 : lapTimes.length - progression_window lapTimes.length =
            (lapTimes.length - (progression_window lapTimes.length + 1)) + 1 := by omega
        rw [h2, List.range'_succ]
      rw [hsplit]
      rw [List.filterMap_cons_none (by
        have h0 : (pySlice lapTimes
            (progression_window lapTimes.length - 2 * progression_window lapTimes.length)
            (progression_window lapTimes.length - progression_window lapTimes.length)).isEmpty =
            true := by
          have ha : progression_window lapTimes.length -
              2 * progression_window lapTimes.length = 0 := by omega
          have hb : progression_window lapTimes.length -
              progression_window lapTimes.length = 0 := by omega
          rw [ha, hb]
          simp [pySlice]
        simp only [h0, if_true])]
      apply filterMap_eq_map_of_some
      intro i hi
      rcases List.mem_range'_1.mp hi with ⟨hi1, hi2⟩
      have hi2' : i < lapTimes.length := by omega
      have hprev : (pySlice lapTimes (i - 2 * progression_window lapTimes.length)
          (i - progression_window lapTimes.length)).isEmpty = false := by
        apply List.isEmpty_eq_false.mpr
        apply List.ne_nil_of_length_pos
        unfold pySlice
        rw [List.length_take, List.length_drop]
        apply lt_min <;> omega
      simp only [hprev, Bool.false_eq_true, if_false]
  refine ⟨hmain, ?_, ?_, ?_⟩
  · rw [hmain, List.length_map, List.length_range']
  · intro hn
    have he : analyze_lap_progression lapTimes = [] := by
      rw [analyze_lap_progression, if_pos hn]
    exact ⟨he, by rw [lap_progression_trend, he]; rfl⟩
  · intro hne
    rw [lap_progression_trend, if_neg (by simp [List.isEmpty_eq_false.mpr hne])]

/-- Witness for C5: a single lap yields an empty trend list and scalar
trend `0`. -/
theorem C5_progression_deltas_witness :
    analyze_lap_progression [(5 : ℚ)] = [] ∧ lap_progression_trend [(5 : ℚ)] = 0 :=
  (C5_progression_deltas [(5 : ℚ)]).2.2.1 (by decide)

/-- Counterexample to C5 as stated: with the two laps `[90, 91]` the window
size is `1` and the index `i = 1 ≥ window` exists, yet no delta at all is
appended — the claimed "delta for each index `i ≥ window`" fails at
`i = window`. -/
theorem C5_skipped_index_counterexample :
    analyze_lap_progression [(90 : ℚ), 91] = [] ∧
    progression_window ([(90 : ℚ), 91]).length = 1 := by
  constructor
  · rfl
  · rfl

/-- Fixed `pace_score = 50` — baseline, no external reference lap time
(`kpi_calculator.py` line 250). -/
def pace_score : ℚ := 50

/-- The score `consistency_score = max(0, 100 - consistency_index * 1000)`
(`kpi_calculator.py` line 251). -/
def consistency_score (consistencyIndex : ℚ) : ℚ :=
  max 0 (100 - consistencyIndex * 1000)

/-- The score `progression_score = min(100, max(0, 50 + progression_trend * 500))`
(`kpi_calculator.py` line 252). -/
def progression_score (progressionTrend : ℚ) : ℚ :=
  min 100 (max 0 (50 + progressionTrend * 500))

/-- The composite `overall_score = (pace + consistency + progression) / 3`
(`kpi_calculator.py` line 254). -/
def overall_score (consistencyIndex progressionTrend : ℚ) : ℚ :=
  (pace_score + consistency_score consistencyIndex +
    progression_score progressionTrend) / 3

/-- The grade ladder of `_calculate_performance_summary`
(`kpi_calculator.py` lines 256-276). -/
def performance_grade (s : ℚ) : String :=
  if 90 ≤ s then "A+"
  else if 85 ≤ s then "A"
  else if 80 ≤ s then "A-"
  else if 75 ≤ s then "B+"
  else if 70 ≤ s then "B"
  else if 65 ≤ s then "B-"
  else if 60 ≤ s then "C+"
  else if 55 ≤ s then "C"
  else if 50 ≤ s then "C-"
  else "D"

/-- C6: the overall performance score is the mean of the fixed pace score 50,
`max(0, 100 - 1000 * ci)` and `clamp(0, 100, 50 + 500 * trend)`, and the
letter grade follows the fixed 5-point bands, with `92 → A+`, `58 → C`,
`40 → D` (`kpi_calculator.py` lines 242-286). -/
theorem C6_performance_summary (ci trend s : ℚ) :
    overall_score ci trend =
      (pace_score + consistency_score ci + progression_score trend) / 3 ∧
    pace_score = 50 ∧
    consistency_score ci = max 0 (100 - 1000 * ci) ∧
    progression_score trend = min 100 (max 0 (50 + 500 * trend)) ∧
    (90 ≤ s → performance_grade s = "A+") ∧
    (85 ≤ s → s < 90 → performance_grade s = "A") ∧
    (80 ≤ s → s < 85 → performance_grade s = "A-") ∧
    (75 ≤ s → s < 80 → performance_grade s = "B+") ∧
    (70 ≤ s → s < 75 → performance_grade s = "B") ∧
    (65 ≤ s → s < 70 → performance_grade s = "B-") ∧
    (60 ≤ s → s < 65 → performance_grade s = "C+") ∧
    (55 ≤ s → s < 60 → performance_grade s = "C") ∧
    (50 ≤ s → s < 55 → performance_grade s = "C-") ∧
    (s < 50 → performance_grade s = "D") ∧
    performance_grade 92 = "A+" ∧ performance_grade 58 = "C" ∧
    performance_grade 40 = "D" := by
  refine ⟨rfl, rfl, by rw [consistency_score, mul_comm],
    by rw [progression_score, mul_comm], ?_, ?_, ?_, ?_, ?_, ?_, ?_, ?_, ?_, ?_,
    by norm_num [performance_grade], by norm_num [performance_grade],
    by norm_num [performance_grade]⟩
  · intro h1
    rw [performance_grade, if_pos h1]
  · intro h1 h2
    rw [performance_grade, if_neg (by linarith), if_pos h1]
  · intro h1 h2
    rw [performance_grade, if_neg (by linarith), if_neg (by linarith), if_pos h1]
  · intro h1 h2
    rw [performance_grade, if_neg (by linarith), if_neg (by linarith),
      if_neg (by linarith), if_pos h1]
  · intro h1 h2
    rw [performance_grade, if_neg (by linarith), if_neg (by linarith),
      if_neg (by linarith), if_neg (by linarith), if_pos h1]
  · intro h1 h2
    rw [performance_grade, if_neg (by linarith), if_neg (by linarith),
      if_neg (by linarith), if_neg (by linarith), if_neg (by linarith), if_pos h1]
  · intro h1 h2
    rw [performance_grade, if_neg (by linarith), if_neg (by linarith),
      if_neg (by linarith), if_neg (by linarith), if_neg (by linarith),
      if_neg (by linarith), if_pos h1]
  · intro h1 h2
    rw [performance_grade, if_neg (by linarith), if_neg (by linarith),
      if_neg (by linarith), if_neg (by linarith), if_neg (by linarith),
      if_neg (by linarith), if_neg (by linarith), if_pos h1]
  · intro h1 h2
    rw [performance_grade, if_neg (by linarith), if_neg (by linarith),
      if_neg (by linarith), if_neg (by linarith), if_neg (by linarith),
      if_neg (by linarith), if_neg (by linarith), if_neg (by linarith), if_pos h1]
  · intro h1
    rw [performance_grade, if_neg (by linarith), if_neg (by linarith),
      if_neg (by linarith), if_neg (by linarith), if_neg (by linarith),
      if_neg (by linarith), if_neg (by linarith), if_neg (by linarith),
      if_neg (by linarith)]

/-- Witness for C6: the `A+` band applied at the concrete score `95`. -/
theorem C6_performance_summary_witness : performance_grade 95 = "A+" :=
  (C6_performance_summary 0 0 95).2.2.2.2.1 (by norm_num)

/-- Sample variance with `ddof = 1` (the numerator and denominator of
pandas `Series.std` before the square root). -/
def sampleVarQ (xs : List ℚ) : ℚ :=
  ((xs.map (fun x => (x - meanQ xs) ^ 2)).sum) / ((xs.length : ℚ) - 1)

/-- pandas `Series.std()` (`ddof = 1`): the square root of the sample
variance for at least two values; `none` models the `NaN` produced for an
empty or single-value series. -/
noncomputable def pandasStd (xs : List ℚ) : Option ℝ :=
  if 2 ≤ xs.length then some (Real.sqrt (sampleVarQ xs)) else none

/-- The ratio `consistency_index = lap_std / avg_lap if avg_lap > 0 else 0`
(`lap_analyzer.py` line 90); a `NaN` standard deviation propagates through
the division (`Option.map`). -/
noncomputable def consistency_index (lapTimes : List ℚ) : Option ℝ :=
  if 0 < meanQ lapTimes then
    (pandasStd lapTimes).map (fun s => s / (meanQ lapTimes : ℝ))
  else some 0

/-- The mean of a non-empty constant list is the constant. -/
lemma meanQ_const (l : List ℚ) (c : ℚ) (h : ∀ x ∈ l, x = c) (hne : l ≠ []) :
    meanQ l = c := by
  have hrep : l = List.replicate l.length c :=
    List.eq_replicate_iff.mpr ⟨rfl, h⟩
  have hlen : (l.length : ℚ) ≠ 0 :=
    Nat.cast_ne_zero.mpr (List.length_pos.mpr hne).ne'
  rw [meanQ]
  nth_rewrite 1 [hrep]
  rw [List.sum_replicate, nsmul_eq_mul, mul_comm, mul_div_assoc,
    div_self hlen, mul_one]

/-- The sample variance of a non-empty constant list is zero. -/
lemma sampleVarQ_const (l : List ℚ) (c : ℚ) (h : ∀ x ∈ l, x = c) (hne : l ≠ []) :
    sampleVarQ l = 0 := by
  rw [sampleVarQ]
  have hz : (l.map (fun x => (x - meanQ l) ^ 2)).sum = 0 := by
    apply List.sum_eq_zero
    intro y hy
    rcases List.mem_map.mp hy with ⟨x, hx, rfl⟩
    rw [h x hx, meanQ_const l c h hne]
    ring
  rw [hz, zero_div]

/-- C7 (amended): with at least two laps `consistency_index` is the sample
standard deviation over the mean when the mean is positive (`some 0` when the
mean is non-positive), and is `some 0` for a constant lap set; with a single
lap and positive mean the sample standard deviation is NaN (`ddof = 1`), so
`consistency_index` is NaN — not `0` as the claim states. -/
theorem C7_consistency_index (lapTimes : List ℚ) (c : ℚ) :
    (2 ≤ lapTimes.length → 0 < meanQ lapTimes →
      consistency_index lapTimes =
        some (Real.sqrt ((sampleVarQ lapTimes : ℚ) : ℝ) / ((meanQ lapTimes : ℚ) : ℝ))) ∧
    (meanQ lapTimes ≤ 0 → consistency_index lapTimes = some 0) ∧
    (2 ≤ lapTimes.length → (∀ x ∈ lapTimes, x = c) →
      consistency_index lapTimes = some 0) ∧
    (lapTimes.length < 2 → 0 < meanQ lapTimes →
      consistency_index lapTimes = none) := by
  refine ⟨?_, ?_, ?_, ?_⟩
  · intro h2 hm
    rw [consistency_index, if_pos hm, pandasStd, if_pos h2]
    rfl
  · intro hm
    rw [consistency_index, if_neg (not_lt.mpr hm)]
  · intro h2 hc
    have hne : lapTimes ≠ [] := by
      intro h0
      rw [h0] at h2
      cases h2
    by_cases hm : 0 < meanQ lapTimes
    · rw [consistency_index, if_pos hm, pandasStd, if_pos h2]
      rw [Option.map_some']
      rw [sampleVarQ_const lapTimes c hc hne]
      norm_num
    · rw [consistency_index, if_neg hm]
  · intro hlt hm
    rw [consistency_index, if_pos hm, pandasStd, if_neg (by omega)]
    rfl

/-- Witness for C7: the constant lap set `[90, 90]` has consistency
index `0`. -/
theorem C7_consistency_index_witness :
    consistency_index [(90 : ℚ), 90] = some 0 :=
  (C7_consistency_index [(90 : ℚ), 90] 90).2.2.1 (by decide) (by decide)

/-- Counterexample to C7 as stated: a non-empty cleaned lap set with one lap
(all of whose lap times are trivially identical) has `consistency_index` NaN
(modelled `none`), not `0`: pandas sample std of a single value is NaN and
the code divides it by the positive mean. -/
theorem C7_single_lap_counterexample :
    consistency_index [(90 : ℚ)] = none ∧
    consistency_index [(90 : ℚ)] ≠ some 0 := by
  have h : consistency_index [(90 : ℚ)] = none := by
    rw [consistency_index, if_pos (by norm_num [meanQ]), pandasStd,
      if_neg (by norm_num)]
    rfl
  refine ⟨h, ?_⟩
  rw [h]
  intro hc
  cases hc

/-- pandas `Series.diff().dropna()`: the list of consecutive differences
`[x₁ - x₀, x₂ - x₁, …]`. -/
def diffList (xs : List ℚ) : List ℚ :=
  List.zipWith (fun a b => a - b) xs.tail xs

/-- The telemetry table with its three analysed channels, each present or
absent (`TelemetryAnalyzer` expects columns `Throttle`, `Brake`,
`SteeringAngle`; `Time` is unused by the analysed metrics). -/
structure TelemetryData where
  throttle : Option (List ℚ)
  brake : Option (List ℚ)
  steeringAngle : Option (List ℚ)

/-- Per-channel smoothness (`telemetry_analyzer.py` lines 43-55):
`diff.std()` when the difference series is non-empty, else `0.0`.  A
one-element difference series (a two-sample channel) has sample std NaN. -/
noncomputable def smoothnessOf (xs : List ℚ) : Option ℝ :=
  if (diffList xs).isEmpty then some 0 else pandasStd (diffList xs)

/-- Embedding of `TelemetryAnalyzer.analyze_input_smoothness` (`telemetry_analyzer.py`
lines 32-57): one metric entry per channel that is present, in dictionary
insertion order. -/
noncomputable def analyze_input_smoothness (t : TelemetryData) :
    List (String × Option ℝ) :=
  (match t.throttle with
   | some xs => [("throttle_smoothness", smoothnessOf xs)]
   | none => []) ++
  (match t.brake with
   | some xs => [("brake_smoothness", smoothnessOf xs)]
   | none => []) ++
  (match t.steeringAngle with
   | some xs => [("steering_smoothness", smoothnessOf xs)]
   | none => [])

/-- The difference list of `n` samples has `n - 1` entries. -/
lemma diffList_length (xs : List ℚ) : (diffList xs).length = xs.length - 1 := by
  rw [diffList, List.length_zipWith, List.length_tail]
  omega

/-- Unfolding of `diffList` on two leading elements. -/
lemma diffList_cons₂ (a b : ℚ) (t : List ℚ) :
    diffList (a :: b :: t) = (b - a) :: diffList (b :: t) := rfl

/-- All differences of a constant list vanish. -/
lemma diffList_all_zero (xs : List ℚ) (c : ℚ) (h : ∀ x ∈ xs, x = c) :
    ∀ d ∈ diffList xs, d = 0 := by
  induction xs with
  | nil => intro d hd; cases hd
  | cons a t ih =>
    cases t with
    | nil => intro d hd; cases hd
    | cons b t2 =>
      intro d hd
      rw [diffList_cons₂] at hd
      rcases List.mem_cons.mp hd with rfl | hd2
      · rw [h a (List.mem_cons_self _ _),
          h b (List.mem_cons_of_mem _ (List.mem_cons_self _ _))]
        ring
      · exact ih (fun x hx => h x (List.mem_cons_of_mem _ hx)) d hd2

/-- C8 (amended): each present channel contributes its smoothness metric —
the sample std of the first differences; a channel with at most one sample
reports `0`, and a constant channel with at least three samples reports `0`.
(With exactly two samples the single difference has NaN sample std; see the
counterexample.) -/
theorem C8_input_smoothness (t : TelemetryData) (xs : List ℚ) (c : ℚ) :
    (t.throttle = some xs →
      ("throttle_smoothness", smoothnessOf xs) ∈ analyze_input_smoothness t) ∧
    (t.brake = some xs →
      ("brake_smoothness", smoothnessOf xs) ∈ analyze_input_smoothness t) ∧
    (t.steeringAngle = some xs →
      ("steering_smoothness", smoothnessOf xs) ∈ analyze_input_smoothness t) ∧
    (xs.length ≤ 1 → smoothnessOf xs = some 0) ∧
    ((∀ x ∈ xs, x = c) → 3 ≤ xs.length → smoothnessOf xs = some 0) := by
  refine ⟨?_, ?_, ?_, ?_, ?_⟩
  · intro h
    rw [analyze_input_smoothness, h]
    exact List.mem_append_left _ (List.mem_append_left _ (List.mem_cons_self _ _))
  · intro h
    rw [analyze_input_smoothness, h]
    exact List.mem_append_left _ (List.mem_append_right _ (List.mem_cons_self _ _))
  · intro h
    rw [analyze_input_smoothness, h]
    exact List.mem_append_right _ (List.mem_cons_self _ _)
  · intro h1
    have hnil : diffList xs = [] := by
      apply List.eq_nil_of_length_eq_zero
      rw [diffList_length]
      omega
    rw [smoothnessOf, if_pos (by rw [hnil]; rfl)]
  · intro hc h3
    have hlen : 2 ≤ (diffList xs).length := by
      rw [diffList_length]
      omega
    have hne : diffList xs ≠ [] := by
      intro h0
      rw [h0] at hlen
      cases hlen
    rw [smoothnessOf, if_neg (by simp [List.isEmpty_eq_false.mpr hne]),
      pandasStd, if_pos hlen,
      sampleVarQ_const (diffList xs) 0 (diffList_all_zero xs c hc) hne]
    norm_num

/-- Witness for C8: a throttle channel of three identical samples reports
smoothness `0`, present under its key. -/
theorem C8_input_smoothness_witness :
    smoothnessOf [(7 : ℚ), 7, 7] = some 0 ∧
    ("throttle_smoothness", smoothnessOf [(7 : ℚ), 7, 7]) ∈
      analyze_input_smoothness ⟨some [(7 : ℚ), 7, 7], none, none⟩ :=
  ⟨(C8_input_smoothness ⟨some [(7 : ℚ), 7, 7], none, none⟩ [(7 : ℚ), 7, 7] 7).2.2.2.2
      (by decide) (by decide),
   (C8_input_smoothness ⟨some [(7 : ℚ), 7, 7], none, none⟩ [(7 : ℚ), 7, 7] 7).1 rfl⟩

/-- Counterexample to C8 as stated: a constant stream of `n = 2` identical
samples has a one-element difference series, whose sample std is NaN
(modelled `none`), not `0`. -/
theorem C8_two_sample_counterexample :
    smoothnessOf [(5 : ℚ), 5] = none ∧ smoothnessOf [(5 : ℚ), 5] ≠ some 0 := by
  have hlen : (diffList [(5 : ℚ), 5]).length = 1 := by
    rw [diffList_length]
    rfl
  have hne : (diffList [(5 : ℚ), 5]).isEmpty = false :=
    List.isEmpty_eq_false.mpr (by
      intro h0
      rw [h0] at hlen
      cases hlen)
  have h : smoothnessOf [(5 : ℚ), 5] = none := by
    rw [smoothnessOf, if_neg (by simp [hne]), pandasStd, if_neg (by omega)]
  refine ⟨h, ?_⟩
  rw [h]
  intro hc
  cases hc

/-- pandas `Series.diff().fillna(0)`: the leading NaN entry becomes `0`. -/
def diffFill0 (l : List ℚ) : List ℚ :=
  match l with
  | [] => []
  | _ :: _ => 0 :: diffList l

/-- The count `num_braking_events` (`telemetry_analyzer.py` line 81): the number of
entries of `diff().fillna(0).abs()` strictly above the `0.1` threshold. -/
def num_braking_events (brakingEvents : List ℚ) : ℕ :=
  (diffFill0 brakingEvents).countP (fun d => decide ((1/10 : ℚ) < |d|))

/-- Embedding of `TelemetryAnalyzer.analyze_braking_points` (`telemetry_analyzer.py`
lines 59-86): with no `Brake` column the result dictionary stays empty; with
one, the samples above the `0.1` threshold give the mean application and the
event count (zeros when no sample exceeds the threshold). -/
def analyze_braking_points (t : TelemetryData) : List (String × ℚ) :=
  match t.brake with
  | none => []
  | some brake =>
      let braking_events := brake.filter (fun b => decide ((1/10 : ℚ) < b))
      if braking_events.isEmpty then
        [("avg_brake_application", 0), ("num_braking_events", 0)]
      else
        [("avg_brake_application", meanQ braking_events),
         ("num_braking_events", (num_braking_events braking_events : ℚ))]

/-- C9: a telemetry table without the `Brake` column makes the braking
analysis return an empty result map — both braking metric keys are absent,
not present with zeros — and the (total) analysis function raises nothing. -/
theorem C9_missing_brake_column (t : TelemetryData) (h : t.brake = none) :
    analyze_braking_points t = [] ∧
    (∀ v : ℚ, ("avg_brake_application", v) ∉ analyze_braking_points t) ∧
    (∀ v : ℚ, ("num_braking_events", v) ∉ analyze_braking_points t) := by
  have he : analyze_braking_points t = [] := by
    rw [analyze_braking_points, h]
  refine ⟨he, fun v hv => ?_, fun v hv => ?_⟩
  · rw [he] at hv
    cases hv
  · rw [he] at hv
    cases hv

/-- Witness for C9: the empty telemetry table has no brake column and the
braking result is empty. -/
theorem C9_missing_brake_column_witness :
    analyze_braking_points ⟨none, none, none⟩ = [] :=
  (C9_missing_brake_column ⟨none, none, none⟩ rfl).1

/-- Python truthiness of an optional dictionary: `None` and the empty
dictionary are falsy. -/
def pyTruthy {α : Type} (d : Option (List α)) : Bool :=
  match d with
  | none => false
  | some l => !l.isEmpty

/-- Key structure of `KPICalculator.calculate_session_kpis`
(`kpi_calculator.py` lines 42-63), in dictionary insertion order: five
unconditional sections, `vehicle_performance` only under
`if vehicle_data:`, `advanced_telemetry` only under
`if advanced_telemetry_kpis:`, then `performance_summary` and
`session_rating`.  The section payloads (which include a wall-clock
timestamp) are outside this model; the lap summary argument does not affect
which keys exist. -/
def calculate_session_kpis_keys (lap_summary : List (String × ℚ))
    (vehicle_data : Option (List (String × Option (List ℚ))))
    (advanced_telemetry_kpis : Option (List (String × Option ℝ))) :
    List String :=
  ["session_info", "lap_performance", "consistency_metrics",
   "sector_performance", "session_progression"] ++
  (if pyTruthy vehicle_data then ["vehicle_performance"] else []) ++
  (if pyTruthy advanced_telemetry_kpis then ["advanced_telemetry"] else []) ++
  ["performance_summary", "session_rating"]

/-- C10: every KPI report carries the seven unconditional sections;
`vehicle_performance` is present iff vehicle data was supplied non-empty, and
`advanced_telemetry` is present iff a telemetry KPI map was supplied
non-empty. -/
theorem C10_kpi_report_keys (lap_summary : List (String × ℚ))
    (vehicle_data : Option (List (String × Option (List ℚ))))
    (advanced_telemetry_kpis : Option (List (String × Option ℝ))) :
    ("session_info" ∈ calculate_session_kpis_keys lap_summary vehicle_data
        advanced_telemetry_kpis ∧
     "lap_performance" ∈ calculate_session_kpis_keys lap_summary vehicle_data
        advanced_telemetry_kpis ∧
     "consistency_metrics" ∈ calculate_session_kpis_keys lap_summary vehicle_data
        advanced_telemetry_kpis ∧
     "sector_performance" ∈ calculate_session_kpis_keys lap_summary vehicle_data
        advanced_telemetry_kpis ∧
     "session_progression" ∈ calculate_session_kpis_keys lap_summary vehicle_data
        advanced_telemetry_kpis ∧
     "performance_summary" ∈ calculate_session_kpis_keys lap_summary vehicle_data
        advanced_telemetry_kpis ∧
     "session_rating" ∈ calculate_session_kpis_keys lap_summary vehicle_data
        advanced_telemetry_kpis) ∧
    ("vehicle_performance" ∈ calculate_session_kpis_keys lap_summary vehicle_data
        advanced_telemetry_kpis ↔ ∃ d, vehicle_data = some d ∧ d ≠ []) ∧
    ("advanced_telemetry" ∈ calculate_session_kpis_keys lap_summary vehicle_data
        advanced_telemetry_kpis ↔
      ∃ d, advanced_telemetry_kpis = some d ∧ d ≠ []) := by
  rcases vehicle_data with _ | d
  · rcases advanced_telemetry_kpis with _ | d2
    · simp [calculate_session_kpis_keys, pyTruthy]
    · rcases d2 with _ | ⟨x2, d2⟩ <;>
        simp [calculate_session_kpis_keys, pyTruthy]
  · rcases advanced_telemetry_kpis with _ | d2
    · rcases d with _ | ⟨x, d⟩ <;>
        simp [calculate_session_kpis_keys, pyTruthy]
    · rcases d with _ | ⟨x, d⟩ <;> rcases d2 with _ | ⟨x2, d2⟩ <;>
        simp [calculate_session_kpis_keys, pyTruthy]

end SimFlow
